import Mathlib

/-!
Verification of the camera / wallet / initialization logic of the
`ai-viewer-web` repository against its natural-language specification.

The development shallowly embeds the two source files:

* `src/src/components/CameraView.jsx` — the camera component: the constraint
  ladder `getConstraints`, the retry loop `startCamera`, `stopCamera`, and the
  `ARViewer` initialization sequence `initializeApp` /
  `initializeLocation` / `initializeCamera` / `loadNearbyObjects`;
* `src/src/config/blockdag-chain.js` — the chain-switching helper
  `switchToBlockDAG`.

Browser effects (getUserMedia, timers, React state setters, window.ethereum)
are modelled by environments of oracles; each JS function becomes a Lean
function from its environment and entry state to the list of observable
events it emits together with the final component state.
-/

/-! ### Camera constraints (CameraView.jsx lines 44-88) -/

/-- Camera facing mode: the component state `cameraFacing` holds `'user'` or
`'environment'` (CameraView.jsx line 34). -/
inductive Facing where
  | user
  | environment
deriving DecidableEq, Repr

/-- A numeric constraint object such as `width: { ideal: 640 }` or
`width: { ideal: 1280, max: 1920 }`. Only `ideal` and `max` occur in the
source's constraint ladder. -/
structure RangeC where
  ideal : Option Nat
  max : Option Nat
deriving DecidableEq, Repr

/-- The fields of a non-boolean `video` constraint object as they occur in
the source (facingMode, width, height, frameRate). -/
structure VideoC where
  facingMode : Option Facing
  width : Option RangeC
  height : Option RangeC
  frameRate : Option RangeC
deriving DecidableEq, Repr

/-- A `video:` entry is either the bare boolean `true` (level 0) or an
object of per-property constraints. -/
inductive VideoConstraint where
  | simple (enabled : Bool)
  | adv (v : VideoC)
deriving DecidableEq, Repr

/-- A full getUserMedia constraint set `{ video: ..., audio: ... }`. -/
structure Constraints where
  video : VideoConstraint
  audio : Bool
deriving DecidableEq, Repr

/-- The five-element constraint ladder of CameraView.jsx lines 45-85,
"from simplest to most complex": level 0 is bare `{video: true}`, level 4
carries ideal and max bounds for width, height and frameRate. -/
def constraintLevels (cameraFacing : Facing) : List Constraints :=
  [ { video := .simple true, audio := false },
    { video := .adv { facingMode := some cameraFacing,
                      width := none, height := none, frameRate := none },
      audio := false },
    { video := .adv { facingMode := some cameraFacing,
                      width := some { ideal := some 640, max := none },
                      height := some { ideal := some 480, max := none },
                      frameRate := none },
      audio := false },
    { video := .adv { facingMode := some cameraFacing,
                      width := some { ideal := some 1280, max := none },
                      height := some { ideal := some 720, max := none },
                      frameRate := none },
      audio := false },
    { video := .adv { facingMode := some cameraFacing,
                      width := some { ideal := some 1280, max := some 1920 },
                      height := some { ideal := some 720, max := some 1080 },
                      frameRate := some { ideal := some 30, max := some 60 } },
      audio := false } ]

/-- `constraintLevels[Math.min(level, constraintLevels.length - 1)]`
(CameraView.jsx line 87): the level is clamped into the ladder. -/
def getConstraints (cameraFacing : Facing) (level : Nat) : Constraints :=
  (constraintLevels cameraFacing).get
    ⟨min level ((constraintLevels cameraFacing).length - 1), by
      simp [constraintLevels]⟩

/-- A candidate camera configuration a device could deliver, for deciding
which configurations a constraint set admits. -/
structure DeviceSettings where
  facing : Facing
  width : Nat
  height : Nat
  frameRate : Nat
deriving DecidableEq, Repr

/-- Whether a numeric property value satisfies a constraint entry. Per the
mediacapture-streams semantics of getUserMedia, `ideal` is a preference and
never rejects a device; `max` is mandatory and rejects values above it
(the component's own error handler expects `OverconstrainedError`,
CameraView.jsx line 318). -/
def rangeOk (r : Option RangeC) (value : Nat) : Bool :=
  match r with
  | none => true
  | some rc =>
    match rc.max with
    | none => true
    | some m => decide (value ≤ m)

/-- Whether a constraint set admits a device configuration. A bare
`video: true` admits every camera; in a constraint object, bare values such
as `facingMode: 'environment'` and all `ideal` entries are treated as ideal
(preferences) per the mediacapture-streams basic-constraint rules, so only
the `max` bounds are mandatory. -/
def admits (c : Constraints) (d : DeviceSettings) : Bool :=
  match c.video with
  | .simple enabled => enabled
  | .adv v =>
      rangeOk v.width d.width && rangeOk v.height d.height &&
        rangeOk v.frameRate d.frameRate

/-- Levels at or above the last index are clamped to the last (level 4)
constraint set. -/
theorem getConstraints_ge4 (cameraFacing : Facing) (level : Nat) (h : 4 ≤ level) :
    getConstraints cameraFacing level = getConstraints cameraFacing 4 := by
  unfold getConstraints
  exact congrArg _ (Fin.ext (by simp [constraintLevels]; omega))

/-- Every level at or below 3 admits every device: levels 0-3 carry no
mandatory (`max`) bound. -/
theorem admits_le3 (cameraFacing : Facing) (level : Nat) (d : DeviceSettings)
    (h : level ≤ 3) : admits (getConstraints cameraFacing level) d = true := by
  interval_cases level <;> rfl

/-- C1 counterexample: the device configuration (environment camera,
width 2000, height 720, 30 fps) is admitted by the level-3 constraints but
rejected by the level-4 constraints (width 2000 exceeds `max: 1920`), so the
set returned by `getConstraints(4)` is NOT a relaxation of the one returned
by `getConstraints(3)`, although level 3 and level 4 are a consecutive pair
of levels tried by the fallback. -/
theorem C1_level4_not_relaxation :
    admits (getConstraints .environment 3) ⟨.environment, 2000, 720, 30⟩ = true ∧
    admits (getConstraints .environment 4) ⟨.environment, 2000, 720, 30⟩ = false := by
  decide

/-- C1 (amended): for every consecutive pair of constraint levels tried
(level k then level k+1), the set returned by `getConstraints(k)` is a
relaxation of the one returned by `getConstraints(k+1)`: every device the
later level admits, the earlier level admits. The ladder is monotonically
MORE restrictive (simplest first, escalating to the full constraints), not
monotonically less restrictive. -/
theorem C1_escalation (cameraFacing : Facing) (k : Nat) (d : DeviceSettings)
    (h : admits (getConstraints cameraFacing (k + 1)) d = true) :
    admits (getConstraints cameraFacing k) d = true := by
  rcases Nat.lt_or_ge k 4 with hk | hk
  · exact admits_le3 cameraFacing k d (by omega)
  · rw [getConstraints_ge4 cameraFacing k hk]
    rw [getConstraints_ge4 cameraFacing (k + 1) (by omega)] at h
    exact h

/-- C1 witness: a concrete device admitted at level 4 is admitted at
level 3. -/
theorem C1_escalation_witness :
    admits (getConstraints .environment 4) ⟨.environment, 640, 480, 30⟩ = true ∧
    admits (getConstraints .environment 3) ⟨.environment, 640, 480, 30⟩ = true :=
  ⟨by decide, C1_escalation .environment 3 ⟨.environment, 640, 480, 30⟩ (by decide)⟩

/-- C9: `getConstraints` is total — the clamped index
`min(level, length - 1)` is in bounds for every natural-number level — and
clamps: every level ≥ 4 yields the same constraint set as level 4. -/
theorem C9_getConstraints_total_clamped (cameraFacing : Facing) (level : Nat) :
    min level ((constraintLevels cameraFacing).length - 1) <
      (constraintLevels cameraFacing).length ∧
    (4 ≤ level → getConstraints cameraFacing level = getConstraints cameraFacing 4) := by
  constructor
  · simp [constraintLevels]
  · exact getConstraints_ge4 cameraFacing level

/-- C9 witness: level 7 is clamped to level 4. -/
theorem C9_witness :
    getConstraints .environment 7 = getConstraints .environment 4 :=
  (C9_getConstraints_total_clamped .environment 7).2 (by omega)

/-! ### Chain switching (blockdag-chain.js lines 77-120) -/

/-- An error thrown by a `window.ethereum.request` call; the source only
inspects its numeric `code` (4902 = unrecognised chain). -/
structure EthError where
  code : Int
deriving DecidableEq, Repr

/-- The environment `switchToBlockDAG` runs against: whether
`window.ethereum` exists, and the outcomes of the two wallet requests
(`none` = the request resolves, `some e` = it rejects with `e`). -/
structure WalletEnv where
  hasEthereum : Bool
  switchError : Option EthError
  addError : Option EthError
deriving DecidableEq, Repr

/-- `switchToBlockDAG` (blockdag-chain.js lines 77-120): try
`wallet_switchEthereumChain`; on an error with code 4902 try
`wallet_addEthereumChain`; every path resolves to a boolean. -/
def switchToBlockDAG (env : WalletEnv) : Bool :=
  if env.hasEthereum then
    match env.switchError with
    | none => true
    | some switchErr =>
      if switchErr.code = 4902 then
        match env.addError with
        | none => true
        | some _ => false
      else false
  else false

/-- Whether the `wallet_addEthereumChain` request is issued during
`switchToBlockDAG`: only inside the catch of the switch request, and only
when the switch error's code is 4902. -/
def addChainRequested (env : WalletEnv) : Bool :=
  env.hasEthereum &&
    match env.switchError with
    | none => false
    | some switchErr => decide (switchErr.code = 4902)

/-- C8: `switchToBlockDAG` is total over its error cases and always
resolves to a boolean: false without `window.ethereum`, false when the
switch fails with a code other than 4902, false when the subsequent
add-chain fails; true when the switch succeeds and true when the add-chain
succeeds; and `wallet_addEthereumChain` is requested iff the switch error
has code 4902. -/
theorem C8_switchToBlockDAG_total (env : WalletEnv) :
    (env.hasEthereum = false → switchToBlockDAG env = false) ∧
    (∀ e, env.switchError = some e → e.code ≠ 4902 → switchToBlockDAG env = false) ∧
    (∀ e e', env.switchError = some e → e.code = 4902 → env.addError = some e' →
      switchToBlockDAG env = false) ∧
    (env.hasEthereum = true → env.switchError = none → switchToBlockDAG env = true) ∧
    (∀ e, env.hasEthereum = true → env.switchError = some e → e.code = 4902 →
      env.addError = none → switchToBlockDAG env = true) ∧
    (addChainRequested env = true ↔
      env.hasEthereum = true ∧ ∃ e, env.switchError = some e ∧ e.code = 4902) := by
  obtain ⟨he, se, ae⟩ := env
  refine ⟨?_, ?_, ?_, ?_, ?_, ?_⟩ <;>
    cases he <;> rcases se with _ | e <;> rcases ae with _ | e' <;>
      simp [switchToBlockDAG, addChainRequested]

/-- C8 witness: with `window.ethereum` present, a switch error of code 4902
and a successful add-chain request, the helper resolves true. -/
theorem C8_witness :
    switchToBlockDAG { hasEthereum := true, switchError := some ⟨4902⟩, addError := none } = true :=
  (C8_switchToBlockDAG_total _).2.2.2.2.1 ⟨4902⟩ rfl rfl rfl rfl

/-! ### App initialization (CameraView.jsx lines 595-771, component ARViewer) -/

/-- A location value as produced by the RTK location service or the
fallback. Coordinates are exact rationals. -/
structure Loc where
  latitude : ℚ
  longitude : ℚ
  altitude : ℚ
  accuracy : ℚ
  timestamp : Nat
  isFallback : Bool
  isRTKEnhanced : Bool
  source : String
deriving DecidableEq, Repr

/-- The hard-coded San Francisco fallback location of
`initializeLocation` (lines 645-653); `now` stands for `Date.now()`. -/
def fallbackLocation (now : Nat) : Loc :=
  { latitude := 377749 / 10000, longitude := -1224194 / 10000, altitude := 52,
    accuracy := 1000, timestamp := now, isFallback := true,
    isRTKEnhanced := false, source := "Fallback Location" }

/-- The `rtkStatus` component state (line 603). -/
structure RtkStatus where
  isRTKEnhanced : Bool
  source : String
  accuracy : Option ℚ
  altitude : Option ℚ
deriving DecidableEq, Repr

/-- An object returned by `getNearbyObjects`; its fields are only displayed,
so an identifier suffices. -/
structure NearbyObject where
  id : Nat
deriving DecidableEq, Repr

/-- The environment `initializeApp` runs against. `mounted i` is the value
`isMountedRef.current` yields at its i-th syntactic read site (sites 0-6 in
source order inside the try block, site 7 inside the catch).
`locationResult` is `getEnhancedLocation`'s outcome (`none` = it rejects),
`cameraOk` whether the permission getUserMedia call resolves, `refreshOk`
whether `refreshConnection` resolves (`false` = it throws, reaching the
catch), and `nearbyResult` is `getNearbyObjects`'s outcome
(`none` = it rejects). -/
structure AppEnv where
  mounted : Nat → Bool
  locationResult : Option Loc
  now : Nat
  cameraOk : Bool
  refreshOk : Bool
  nearbyResult : Option (List NearbyObject)

/-- Which browser/backend call an initialization event stands for. -/
inductive CallTag where
  | location
  | camera
  | database
  | objects
deriving DecidableEq, Repr

/-- Observable events of the initialization sequence: state updates of
`initializationStep` and `isInitialized`, awaited delays, and the external
calls in the order they are issued. -/
inductive AEv where
  | setStep (n : Nat)
  | callGetLocation
  | callCameraGum
  | callRefresh
  | callGetNearby (latitude longitude : ℚ) (radius limit : Nat)
  | wait (ms : Nat)
  | initializedTrue
deriving DecidableEq, Repr

/-- The ARViewer component state touched by the initialization sequence
(lines 596-607). `locationError` records whether `setLocationError` last
stored an error message. -/
structure AppState where
  currentLocation : Option Loc
  locationError : Bool
  rtkStatus : RtkStatus
  initializationStep : Nat
  isInitialized : Bool
  nearbyObjects : List NearbyObject
  cameraActive : Bool
deriving DecidableEq, Repr

/-- The initial ARViewer state (useState initials, lines 596-607). -/
def initialAppState : AppState :=
  { currentLocation := none, locationError := false,
    rtkStatus := { isRTKEnhanced := false, source := "Standard GPS",
                   accuracy := none, altitude := none },
    initializationStep := 0, isInitialized := false, nearbyObjects := [],
    cameraActive := false }

/-- `initializeLocation` (lines 621-666): set step 1, call the RTK service;
on success store the location, on rejection catch and store the fallback.
Either way it resolves with a location value — it never rejects. -/
def initializeLocation (env : AppEnv) (s : AppState) :
    List AEv × Loc × AppState :=
  let s1 := { s with initializationStep := 1 }
  match env.locationResult with
  | some location =>
      ([.setStep 1, .callGetLocation], location,
       { s1 with currentLocation := some location, locationError := false,
                 rtkStatus := { isRTKEnhanced := location.isRTKEnhanced,
                                source := if location.source = "" then "Standard GPS"
                                          else location.source,
                                accuracy := some location.accuracy,
                                altitude := some location.altitude } })
  | none =>
      let fb := fallbackLocation env.now
      ([.setStep 1, .callGetLocation], fb,
       { s1 with currentLocation := some fb, locationError := true,
                 rtkStatus := { isRTKEnhanced := false,
                                source := "Fallback Location",
                                accuracy := some 1000, altitude := some 52 } })

/-- `initializeCamera` (lines 669-693): set step 2, request the camera once
for permission (the stream is stopped again at once); a rejection is caught
and yields `false`. -/
def initializeCamera (env : AppEnv) (s : AppState) :
    List AEv × Bool × AppState :=
  let s1 := { s with initializationStep := 2 }
  if env.cameraOk then
    ([.setStep 2, .callCameraGum], true, { s1 with cameraActive := true })
  else
    ([.setStep 2, .callCameraGum], false, { s1 with cameraActive := false })

/-- `loadNearbyObjects` (lines 696-716): set step 3, query objects within
100 m (limit 10) around the given location; a rejection is caught and
yields the empty list (the `objects || []` coalescing is folded into the
match). -/
def loadNearbyObjects (env : AppEnv) (location : Loc) (s : AppState) :
    List AEv × List NearbyObject × AppState :=
  let s1 := { s with initializationStep := 3 }
  let evs := [AEv.setStep 3,
              AEv.callGetNearby location.latitude location.longitude 100 10]
  match env.nearbyResult with
  | some objects => (evs, objects, { s1 with nearbyObjects := objects })
  | none => (evs, [], { s1 with nearbyObjects := [] })

/-- `initializeApp` (lines 719-761): location, then camera, then database
refresh and nearby objects, then step 4 / initialized — each region guarded
by an `isMountedRef.current` read (sites 0-6), with the catch (site 7)
setting `isInitialized` after a `refreshConnection` throw. -/
def initializeApp (env : AppEnv) : List AEv × AppState :=
  let s0 := initialAppState
  if env.mounted 0 = false then ([], s0) else
  let r1 := initializeLocation env s0
  let location := r1.2.1
  if env.mounted 1 = false then (r1.1, r1.2.2) else
  let r2 := if env.mounted 2 then
      let c := initializeCamera env r1.2.2
      (c.1, c.2.2)
    else ([], r1.2.2)
  if env.mounted 3 = false then (r1.1 ++ AEv.wait 1000 :: r2.1, r2.2) else
  if env.mounted 4 then
    if env.refreshOk then
      let r3 := loadNearbyObjects env location r2.2
      if env.mounted 5 = false then
        (r1.1 ++ AEv.wait 1000 :: r2.1 ++ AEv.wait 1000 :: AEv.callRefresh :: r3.1,
         r3.2.2)
      else if env.mounted 6 then
        (r1.1 ++ AEv.wait 1000 :: r2.1 ++ AEv.wait 1000 :: AEv.callRefresh :: r3.1 ++
           [AEv.wait 800, AEv.setStep 4, AEv.initializedTrue],
         { r3.2.2 with initializationStep := 4, isInitialized := true })
      else
        (r1.1 ++ AEv.wait 1000 :: r2.1 ++ AEv.wait 1000 :: AEv.callRefresh :: r3.1 ++
           [AEv.wait 800],
         r3.2.2)
    else
      if env.mounted 7 then
        (r1.1 ++ AEv.wait 1000 :: r2.1 ++
           [AEv.wait 1000, AEv.callRefresh, AEv.initializedTrue],
         { r2.2 with isInitialized := true })
      else
        (r1.1 ++ AEv.wait 1000 :: r2.1 ++ [AEv.wait 1000, AEv.callRefresh], r2.2)
  else
    if env.mounted 5 = false then
      (r1.1 ++ AEv.wait 1000 :: r2.1 ++ [AEv.wait 1000], r2.2)
    else if env.mounted 6 then
      (r1.1 ++ AEv.wait 1000 :: r2.1 ++
         [AEv.wait 1000, AEv.wait 800, AEv.setStep 4, AEv.initializedTrue],
       { r2.2 with initializationStep := 4, isInitialized := true })
    else
      (r1.1 ++ AEv.wait 1000 :: r2.1 ++ [AEv.wait 1000, AEv.wait 800], r2.2)

/-- The `initializationStep` values a trace assigns, in order. -/
def stepsOf (evs : List AEv) : List Nat :=
  evs.filterMap fun e =>
    match e with
    | .setStep n => some n
    | _ => none

/-- The external calls a trace issues, in order, as tags. -/
def callsOf (evs : List AEv) : List CallTag :=
  evs.filterMap fun e =>
    match e with
    | .callGetLocation => some .location
    | .callCameraGum => some .camera
    | .callRefresh => some .database
    | .callGetNearby _ _ _ _ => some .objects
    | _ => none

/-- `initialSegment xs ys`: xs is an initial segment (a leading part) of
ys. -/
def initialSegment {α : Type} [DecidableEq α] : List α → List α → Bool
  | [], _ => true
  | _ :: _, [] => false
  | a :: xs, b :: ys => decide (a = b) && initialSegment xs ys

theorem initializeLocation_events (env : AppEnv) (s : AppState) :
    (initializeLocation env s).1 = [AEv.setStep 1, AEv.callGetLocation] := by
  cases h : env.locationResult <;> simp [initializeLocation, h]

theorem initializeCamera_events (env : AppEnv) (s : AppState) :
    (initializeCamera env s).1 = [AEv.setStep 2, AEv.callCameraGum] := by
  cases h : env.cameraOk <;> simp [initializeCamera, h]

theorem loadNearbyObjects_events (env : AppEnv) (location : Loc) (s : AppState) :
    (loadNearbyObjects env location s).1 =
      [AEv.setStep 3,
       AEv.callGetNearby location.latitude location.longitude 100 10] := by
  cases h : env.nearbyResult <;> simp [loadNearbyObjects, h]

/-- Under a monotone mounted flag (once unmounted, never remounted — the
cleanup of the mount effect only ever sets `isMountedRef.current` to false),
the step assignments and external calls of one `initializeApp` run are an
initial segment of the full ordered sequence. -/
theorem initializeApp_order (env : AppEnv)
    (hmono : ∀ i j, i ≤ j → env.mounted j = true → env.mounted i = true) :
    initialSegment (stepsOf (initializeApp env).1) [1, 2, 3, 4] = true ∧
    initialSegment (callsOf (initializeApp env).1)
      [CallTag.location, CallTag.camera, CallTag.database, CallTag.objects]
      = true := by
  cases hm0 : env.mounted 0 with
  | false => simp [initializeApp, hm0, stepsOf, callsOf, initialSegment]
  | true =>
  cases hm1 : env.mounted 1 with
  | false =>
      simp [initializeApp, hm0, hm1, initializeLocation_events, stepsOf,
            callsOf, initialSegment]
  | true =>
  cases hm2 : env.mounted 2 with
  | false =>
      have hm3 : env.mounted 3 = false := by
        cases h : env.mounted 3 with
        | false => rfl
        | true => exact absurd (hmono 2 3 (by omega) h) (by simp [hm2])
      simp [initializeApp, hm0, hm1, hm2, hm3, initializeLocation_events,
            stepsOf, callsOf, initialSegment]
  | true =>
  cases hm3 : env.mounted 3 with
  | false =>
      simp [initializeApp, hm0, hm1, hm2, hm3, initializeLocation_events,
            initializeCamera_events, stepsOf, callsOf, initialSegment]
  | true =>
  cases hm4 : env.mounted 4 with
  | false =>
      have hm5 : env.mounted 5 = false := by
        cases h : env.mounted 5 with
        | false => rfl
        | true => exact absurd (hmono 4 5 (by omega) h) (by simp [hm4])
      simp [initializeApp, hm0, hm1, hm2, hm3, hm4, hm5,
            initializeLocation_events, initializeCamera_events, stepsOf,
            callsOf, initialSegment]
  | true =>
  cases hr : env.refreshOk with
  | false =>
      cases hm7 : env.mounted 7 with
      | false =>
          simp [initializeApp, hm0, hm1, hm2, hm3, hm4, hr, hm7,
                initializeLocation_events, initializeCamera_events, stepsOf,
                callsOf, initialSegment]
      | true =>
          simp [initializeApp, hm0, hm1, hm2, hm3, hm4, hr, hm7,
                initializeLocation_events, initializeCamera_events, stepsOf,
                callsOf, initialSegment]
  | true =>
  cases hm5 : env.mounted 5 with
  | false =>
      simp [initializeApp, hm0, hm1, hm2, hm3, hm4, hr, hm5,
            initializeLocation_events, initializeCamera_events,
            loadNearbyObjects_events, stepsOf, callsOf, initialSegment]
  | true =>
  cases hm6 : env.mounted 6 with
  | false =>
      simp [initializeApp, hm0, hm1, hm2, hm3, hm4, hr, hm5, hm6,
            initializeLocation_events, initializeCamera_events,
            loadNearbyObjects_events, stepsOf, callsOf, initialSegment]
  | true =>
      simp [initializeApp, hm0, hm1, hm2, hm3, hm4, hr, hm5, hm6,
            initializeLocation_events, initializeCamera_events,
            loadNearbyObjects_events, stepsOf, callsOf, initialSegment]

/-- When the component stays mounted and `refreshConnection` resolves, the
run assigns exactly the steps 1, 2, 3, 4 and issues exactly the four
external calls in order. -/
theorem initializeApp_complete (env : AppEnv)
    (hall : ∀ i, env.mounted i = true) (hr : env.refreshOk = true) :
    stepsOf (initializeApp env).1 = [1, 2, 3, 4] ∧
    callsOf (initializeApp env).1 =
      [CallTag.location, CallTag.camera, CallTag.database, CallTag.objects] := by
  simp [initializeApp, hall 0, hall 1, hall 2, hall 3, hall 4, hall 5,
        hall 6, hr, initializeLocation_events, initializeCamera_events,
        loadNearbyObjects_events, stepsOf, callsOf]

/-- C3: one run of `initializeApp` performs its steps in the fixed order
location, camera, database+objects, ready: the `initializationStep` values
assigned form an initial segment of 1, 2, 3, 4 (hence are strictly
increasing), the external calls are issued in the order location, camera,
database, objects, and in a fully mounted run with a resolving
`refreshConnection` the whole sequence 1, 2, 3, 4 is assigned — each region
only after the previous call site, in the sequential trace order. -/
theorem C3_initialization_order (env : AppEnv)
    (hmono : ∀ i j, i ≤ j → env.mounted j = true → env.mounted i = true) :
    initialSegment (stepsOf (initializeApp env).1) [1, 2, 3, 4] = true ∧
    initialSegment (callsOf (initializeApp env).1)
      [CallTag.location, CallTag.camera, CallTag.database, CallTag.objects]
      = true ∧
    ((∀ i, env.mounted i = true) → env.refreshOk = true →
      stepsOf (initializeApp env).1 = [1, 2, 3, 4] ∧
      callsOf (initializeApp env).1 =
        [CallTag.location, CallTag.camera, CallTag.database, CallTag.objects]) :=
  ⟨(initializeApp_order env hmono).1, (initializeApp_order env hmono).2,
   fun hall hr => initializeApp_complete env hall hr⟩

/-- A concrete environment: mounted throughout, the location service and the
object query reject, the camera and the database refresh resolve. -/
def appEnvLive : AppEnv :=
  { mounted := fun _ => true, locationResult := none, now := 0,
    cameraOk := true, refreshOk := true, nearbyResult := none }

/-- C3 witness: in the concrete always-mounted environment the run assigns
exactly the steps 1, 2, 3, 4. -/
theorem C3_witness : stepsOf (initializeApp appEnvLive).1 = [1, 2, 3, 4] :=
  ((C3_initialization_order appEnvLive (fun _ _ _ h => h)).2.2
    (fun _ => rfl) rfl).1

/-- C5: `initializeApp` degrades gracefully. For every combination of
success or failure of the location, camera, database and object sub-steps,
a run that stays mounted ends with `isInitialized = true` (through the
step-4 path or through the catch after a `refreshConnection` throw); and
`initializeLocation` never rejects: it resolves with the service's location
or, on failure, with the fallback location, so the later steps always
receive a location value. -/
theorem C5_graceful_init (env env' : AppEnv) (s' : AppState)
    (hmounted : ∀ i, env.mounted i = true) :
    (initializeApp env).2.isInitialized = true ∧
    (initializeLocation env' s').2.1 =
      env'.locationResult.getD (fallbackLocation env'.now) := by
  constructor
  · cases hr : env.refreshOk with
    | false =>
        simp [initializeApp, hmounted 0, hmounted 1, hmounted 2, hmounted 3,
              hmounted 4, hmounted 7, hr]
    | true =>
        simp [initializeApp, hmounted 0, hmounted 1, hmounted 2, hmounted 3,
              hmounted 4, hmounted 5, hmounted 6, hr]
  · cases h : env'.locationResult <;> simp [initializeLocation, h]

/-- C5 witness: in the concrete always-mounted environment (whose location
service rejects) the run still ends initialized, and `initializeLocation`
resolves with the fallback location. -/
theorem C5_witness :
    (initializeApp appEnvLive).2.isInitialized = true ∧
    (initializeLocation appEnvLive initialAppState).2.1 = fallbackLocation 0 :=
  C5_graceful_init appEnvLive appEnvLive initialAppState (fun _ => rfl)

/-! ### The camera retry loop (CameraView.jsx lines 91-235) -/

/-- A media track of a stream; only identity and `stop()` matter here. -/
structure Track where
  id : Nat
deriving DecidableEq, Repr

/-- A MediaStream: its list of tracks. -/
structure CamStream where
  tracks : List Track
deriving DecidableEq, Repr

/-- The outcome of one `navigator.mediaDevices.getUserMedia` call: it
rejects, resolves with a null/absent stream, or resolves with a stream. -/
inductive GumRes where
  | throws
  | nullStream
  | ok (stream : CamStream)
deriving DecidableEq, Repr

/-- The environment one `startCamera` run observes: the getUserMedia
outcome for a given constraint set and attempt number, whether
`videoRef.current` is non-null, and whether the video element loads and
plays the stream within the timeout at a given (level, attempt). -/
structure CamEnv where
  gum : Constraints → Nat → GumRes
  videoPresent : Bool
  videoLoads : Nat → Nat → Bool

/-- The failure causes one attempt of the try block can raise: the
getUserMedia rejection, the `'No camera stream received'` error for a null
or track-less stream (lines 127-129), the `'Video element not available'`
error (line 136), and the video-load timeout/error (lines 143-174). -/
inductive CamErr where
  | gumThrew
  | streamNull
  | noStreamTracks
  | videoUnavailable
  | videoLoadFailed
deriving DecidableEq, Repr

/-- Observable events of a `startCamera` run: awaited delays, getUserMedia
calls tagged with their (constraint level, attempt), a successful stream
start, the decision to retry the same level at the next attempt, the
decision to fall back to the next constraint level, and the terminal error
report (setError + onError). -/
inductive Ev where
  | wait (ms : Nat)
  | gumCall (level attempt : Nat)
  | success
  | retrySame (level attempt : Nat)
  | fallback (level : Nat)
  | errorOut
deriving DecidableEq, Repr

/-- The camera component state `startCamera`/`stopCamera` touch:
`streamRef.current`, the video element's `srcObject`, `isStreaming`,
`error` (the caught error whose message `getCameraErrorMessage` renders —
the rendering itself is display-only and not modelled), `retryCount`,
`isRetrying`, the set of tracks `stop()` has been called on, and whether
the `onError` callback has been invoked. -/
structure CamState where
  streamRef : Option CamStream
  videoSrc : Option CamStream
  isStreaming : Bool
  error : Option CamErr
  retryCount : Nat
  isRetrying : Bool
  stopped : List Track
  onErrorCalled : Bool
deriving DecidableEq, Repr

/-- The component's initial state (refs null, useState initials). -/
def initCamState : CamState :=
  { streamRef := none, videoSrc := none, isStreaming := false, error := none,
    retryCount := 0, isRetrying := false, stopped := [], onErrorCalled := false }

/-- The pre-attempt delay (line 117):
`attempt > 1 ? 500 + (attempt * 200) : 100`. -/
def delay (attempt : Nat) : Nat :=
  if attempt > 1 then 500 + attempt * 200 else 100

/-- Stop every track of the held stream and drop the reference
(lines 102-109 at attempt start, lines 185-188 in the catch). -/
def stopTracksOf (s : CamState) : CamState :=
  match s.streamRef with
  | some stream =>
      { s with stopped := s.stopped ++ stream.tracks, streamRef := none }
  | none => s

/-- Clear the video element's `srcObject` when the element exists
(lines 112-114 and 190-192). -/
def clearVideo (videoPresent : Bool) (s : CamState) : CamState :=
  if videoPresent then { s with videoSrc := none } else s

/-- The failure cause of the try block at a given (level, attempt), `none`
when the attempt succeeds. Mirrors the throw sites in source order:
getUserMedia rejection; null stream; zero tracks; missing video element;
video load failure. -/
def failCause (env : CamEnv) (cameraFacing : Facing) (level attempt : Nat) :
    Option CamErr :=
  match env.gum (getConstraints cameraFacing level) attempt with
  | .throws => some .gumThrew
  | .nullStream => some .streamNull
  | .ok stream =>
      if stream.tracks.length = 0 then some .noStreamTracks
      else if env.videoPresent then
        if env.videoLoads level attempt then none else some .videoLoadFailed
      else some .videoUnavailable

/-- Whether the try block fails at a given (level, attempt). -/
def attemptFails (env : CamEnv) (cameraFacing : Facing) (level attempt : Nat) :
    Bool :=
  (failCause env cameraFacing level attempt).isSome

/-- One activation of `startCamera`'s try block together with its catch
cleanup (lines 95-192): clear the error, set `isRetrying`, stop and drop an
existing stream, clear the video element, wait the pre-attempt delay, call
getUserMedia with this level's constraints, then check the stream, attach
it and wait for the video to load. Returns the emitted events, the state
after the block (after the catch cleanup on failure), and the failure
cause if any. -/
def attemptStep (env : CamEnv) (cameraFacing : Facing) (level attempt : Nat)
    (s : CamState) : List Ev × CamState × Option CamErr :=
  let s1 := { s with error := none, isRetrying := decide (attempt > 1) }
  let s2 := clearVideo env.videoPresent (stopTracksOf s1)
  let evs : List Ev := [.wait (delay attempt), .gumCall level attempt]
  match env.gum (getConstraints cameraFacing level) attempt with
  | .throws => (evs, clearVideo env.videoPresent (stopTracksOf s2), some .gumThrew)
  | .nullStream =>
      (evs, clearVideo env.videoPresent (stopTracksOf s2), some .streamNull)
  | .ok stream =>
      if stream.tracks.length = 0 then
        (evs, clearVideo env.videoPresent (stopTracksOf s2), some .noStreamTracks)
      else
        let s3 := { s2 with streamRef := some stream }
        if env.videoPresent then
          let s4 := { s3 with videoSrc := some stream }
          if env.videoLoads level attempt then
            (evs ++ [.success],
             { s4 with isStreaming := true, retryCount := 0, isRetrying := false },
             none)
          else
            (evs, clearVideo env.videoPresent (stopTracksOf s4), some .videoLoadFailed)
        else
          (evs, clearVideo env.videoPresent (stopTracksOf s3), some .videoUnavailable)

/-- The recursion of `startCamera` (lines 91-215), structured over a fuel
argument that bounds the number of activations (15 activations suffice
from the initial call, as C2 proves; the fuel-0 branch is never reached).
On failure: retry the same level while `attempt < maxAttempts` (3),
otherwise fall back to the next level with the attempt counter reset to 1
while `level < maxConstraintLevels - 1` (4), otherwise report the error
(setError, setIsStreaming false, onError). Each recursive call follows an
awaited 1000 ms delay (lines 198 and 203). -/
def startCameraAux (env : CamEnv) (cameraFacing : Facing) :
    Nat → Nat → Nat → CamState → List Ev × CamState
  | 0, _, _, s => ([], s)
  | fuel + 1, level, attempt, s =>
    let r := attemptStep env cameraFacing level attempt s
    match r.2.2 with
    | none => (r.1, r.2.1)
    | some e =>
      if attempt < 3 then
        let r2 := startCameraAux env cameraFacing fuel level (attempt + 1)
          { r.2.1 with retryCount := attempt }
        (r.1 ++ Ev.retrySame level (attempt + 1) :: Ev.wait 1000 :: r2.1, r2.2)
      else if level < 4 then
        let r2 := startCameraAux env cameraFacing fuel (level + 1) 1
          { r.2.1 with retryCount := 0 }
        (r.1 ++ Ev.fallback (level + 1) :: Ev.wait 1000 :: r2.1, r2.2)
      else
        (r.1 ++ [Ev.errorOut],
         { r.2.1 with error := some e, isStreaming := false, retryCount := 0,
                      isRetrying := false, onErrorCalled := true })

/-- `startCamera()` as invoked with its default arguments
(constraintLevel = 0, attempt = 1) on the initial component state. -/
def startCamera (env : CamEnv) (cameraFacing : Facing) : List Ev × CamState :=
  startCameraAux env cameraFacing 15 0 1 initCamState

/-- `stopCamera` (lines 218-235): stop every track of the held stream, drop
the reference, clear the video element, set `isStreaming` false. -/
def stopCamera (videoPresent : Bool) (s : CamState) : CamState :=
  { clearVideo videoPresent (stopTracksOf s) with isStreaming := false }

/-- The number of activations still possible from a given (level, attempt):
up to 3 attempts on each of the levels above `level`, and the attempts left
on the current level. -/
def remAct (level attempt : Nat) : Nat :=
  3 * (4 - level) + (4 - attempt)

/-- How many getUserMedia calls a trace holds. -/
def countGum (evs : List Ev) : Nat :=
  evs.countP fun e =>
    match e with
    | .gumCall _ _ => true
    | _ => false

/-- Whether an event is a retry or level-fallback decision. -/
def isTransition (e : Ev) : Bool :=
  match e with
  | .retrySame _ _ => true
  | .fallback _ => true
  | _ => false

/-- How many retry/fallback decisions a trace holds. -/
def countTransition (evs : List Ev) : Nat :=
  evs.countP isTransition

/-- A getUserMedia call event carries a level within the five-level ladder
and an attempt number within 1..3. -/
def gumOk (e : Ev) : Bool :=
  match e with
  | .gumCall level attempt =>
      decide (level ≤ 4) && decide (1 ≤ attempt) && decide (attempt ≤ 3)
  | _ => true

/-- Every retry and every fallback decision in the trace is followed
immediately by the awaited 1000 ms delay. -/
def transitionsWaited : List Ev → Bool
  | [] => true
  | e :: es =>
    if isTransition e then
      match es with
      | Ev.wait 1000 :: _ => transitionsWaited es
      | _ => false
    else transitionsWaited es

/-- All 15 (level, attempt) pairs fail: every attempt 1..3 at every level
0..4. -/
def allFail (env : CamEnv) (cameraFacing : Facing) : Bool :=
  (List.range 5).all fun level =>
    (List.range 3).all fun k => attemptFails env cameraFacing level (k + 1)

/-- All pairs at or after (level, attempt) in the traversal order of the
retry loop fail; the traversal rank of (l, a) is 3·l + a. -/
def failsFrom (env : CamEnv) (cameraFacing : Facing) (level attempt : Nat) :
    Prop :=
  ∀ l a, l ≤ 4 → 1 ≤ a → a ≤ 3 → 3 * level + attempt ≤ 3 * l + a →
    attemptFails env cameraFacing l a = true
theorem attemptStep_err (env : CamEnv) (f : Facing) (l a : Nat) (s : CamState) :
    (attemptStep env f l a s).2.2 = failCause env f l a := by
  unfold attemptStep failCause
  cases hg : env.gum (getConstraints f l) a with
  | throws => rfl
  | nullStream => rfl
  | ok stream =>
      by_cases h0 : stream.tracks.length = 0 <;>
        by_cases hv : env.videoPresent = true <;>
          by_cases hl : env.videoLoads l a = true <;>
            simp [h0, hv, hl]

theorem attemptStep_evs (env : CamEnv) (f : Facing) (l a : Nat) (s : CamState) :
    (attemptStep env f l a s).1 =
      Ev.wait (delay a) :: Ev.gumCall l a ::
        (if attemptFails env f l a then [] else [Ev.success]) := by
  unfold attemptStep attemptFails failCause
  cases hg : env.gum (getConstraints f l) a with
  | throws => rfl
  | nullStream => rfl
  | ok stream =>
      by_cases h0 : stream.tracks.length = 0 <;>
        by_cases hv : env.videoPresent = true <;>
          by_cases hl : env.videoLoads l a = true <;>
            simp [h0, hv, hl]

theorem attemptStep_post (env : CamEnv) (f : Facing) (l a : Nat) (s : CamState) :
    (attemptStep env f l a s).2.1.error = none ∧
    (attemptStep env f l a s).2.1.onErrorCalled = s.onErrorCalled := by
  unfold attemptStep clearVideo stopTracksOf
  cases hg : env.gum (getConstraints f l) a <;>
    cases hv : env.videoPresent <;>
      cases hs : s.streamRef <;>
        simp [hg, hv, hs] <;>
          split_ifs <;>
            simp_all

theorem attemptStep_fail_state (env : CamEnv) (f : Facing) (l a : Nat)
    (s : CamState) (e : CamErr)
    (hfail : (attemptStep env f l a s).2.2 = some e) :
    (attemptStep env f l a s).2.1.streamRef = none ∧
    (env.videoPresent = true → (attemptStep env f l a s).2.1.videoSrc = none) ∧
    (attemptStep env f l a s).2.1.isStreaming = s.isStreaming ∧
    (∀ t ∈ s.stopped, t ∈ (attemptStep env f l a s).2.1.stopped) ∧
    (∀ stream, s.streamRef = some stream →
      ∀ t ∈ stream.tracks, t ∈ (attemptStep env f l a s).2.1.stopped) ∧
    (∀ stream, env.gum (getConstraints f l) a = .ok stream →
      ∀ t ∈ stream.tracks, t ∈ (attemptStep env f l a s).2.1.stopped) := by
  revert hfail
  unfold attemptStep clearVideo stopTracksOf
  cases hg : env.gum (getConstraints f l) a <;>
    cases hv : env.videoPresent <;>
      cases hs : s.streamRef <;>
        simp [hg, hv, hs] <;>
          (try split_ifs) <;>
            (try simp_all [List.length_eq_zero])

theorem startCameraAux_shape (env : CamEnv) (f : Facing) :
    ∀ fuel level attempt s, remAct level attempt ≤ fuel →
      level ≤ 4 → 1 ≤ attempt → attempt ≤ 3 →
      countGum (startCameraAux env f fuel level attempt s).1 ≤
        remAct level attempt ∧
      (startCameraAux env f fuel level attempt s).1.all gumOk = true ∧
      countGum (startCameraAux env f fuel level attempt s).1 =
        1 + countTransition (startCameraAux env f fuel level attempt s).1 ∧
      transitionsWaited (startCameraAux env f fuel level attempt s).1 = true := by
  intro fuel
  induction fuel with
  | zero =>
      intro level attempt s hfuel hl ha1 ha3
      exact absurd hfuel (by simp [remAct]; omega)
  | succ fuel ih =>
      intro level attempt s hfuel hl ha1 ha3
      rcases hres : failCause env f level attempt with _ | e
      · -- the attempt succeeds
        have hfb : attemptFails env f level attempt = false := by
          simp [attemptFails, hres]
        have hevs := attemptStep_evs env f level attempt s
        rw [hfb] at hevs
        simp only [if_false, Bool.false_eq_true] at hevs
        simp only [startCameraAux, attemptStep_err, hres]
        refine ⟨?_, ?_, ?_, ?_⟩
        all_goals simp [hevs, countGum, countTransition, transitionsWaited,
                        isTransition, gumOk, hl, ha1, ha3, remAct]
        all_goals omega
      · -- the attempt fails
        have hfb : attemptFails env f level attempt = true := by
          simp [attemptFails, hres]
        have hevs := attemptStep_evs env f level attempt s
        rw [hfb] at hevs
        simp only [if_true] at hevs
        by_cases hA : attempt < 3
        · -- retry at the same level
          obtain ⟨ihb, iha, ihc, ihw⟩ := ih level (attempt + 1)
            { (attemptStep env f level attempt s).2.1 with retryCount := attempt }
            (by simp [remAct] at hfuel ⊢; omega) hl (by omega) (by omega)
          simp only [startCameraAux, attemptStep_err, hres, if_pos hA]
          refine ⟨?_, ?_, ?_, ?_⟩
          · simp [hevs, countGum, List.countP_append] at ihb ⊢
            simp [remAct] at ihb ⊢; omega
          · simp [hevs, gumOk, hl, ha1, ha3, iha]
          · simp [hevs, countGum, countTransition, List.countP_append,
                  isTransition] at ihc ⊢
            omega
          · simp [hevs, transitionsWaited, isTransition, ihw]
        · by_cases hL : level < 4
          · -- fall back to the next level
            obtain ⟨ihb, iha, ihc, ihw⟩ := ih (level + 1) 1
              { (attemptStep env f level attempt s).2.1 with retryCount := 0 }
              (by simp [remAct] at hfuel ⊢; omega) (by omega) (by omega) (by omega)
            simp only [startCameraAux, attemptStep_err, hres, if_neg hA, if_pos hL]
            refine ⟨?_, ?_, ?_, ?_⟩
            · simp [hevs, countGum, List.countP_append] at ihb ⊢
              simp [remAct] at ihb ⊢; omega
            · simp [hevs, gumOk, hl, ha1, ha3, iha]
            · simp [hevs, countGum, countTransition, List.countP_append,
                    isTransition] at ihc ⊢
              omega
            · simp [hevs, transitionsWaited, isTransition, ihw]
          · -- terminal failure
            simp only [startCameraAux, attemptStep_err, hres, if_neg hA, if_neg hL]
            refine ⟨?_, ?_, ?_, ?_⟩
            all_goals simp [hevs, countGum, countTransition, transitionsWaited,
                            isTransition, gumOk, hl, ha1, ha3, remAct]
            all_goals omega

theorem failsFrom_succ_attempt (env : CamEnv) (f : Facing) (level attempt : Nat)
    (hl : level ≤ 4) (ha1 : 1 ≤ attempt) (hA : attempt < 3) :
    failsFrom env f level attempt ↔
      (attemptFails env f level attempt = true ∧
        failsFrom env f level (attempt + 1)) := by
  constructor
  · intro h
    exact ⟨h level attempt hl ha1 (by omega) (by omega),
           fun l a hla ha1' ha3' hrank => h l a hla ha1' ha3' (by omega)⟩
  · rintro ⟨hcur, hnext⟩ l a hla ha1' ha3' hrank
    rcases Nat.eq_or_lt_of_le hrank with heq | hlt
    · obtain ⟨rfl, rfl⟩ : l = level ∧ a = attempt := by omega
      exact hcur
    · exact hnext l a hla ha1' ha3' (by omega)

theorem failsFrom_succ_level (env : CamEnv) (f : Facing) (level : Nat)
    (hL : level < 4) :
    failsFrom env f level 3 ↔
      (attemptFails env f level 3 = true ∧ failsFrom env f (level + 1) 1) := by
  constructor
  · intro h
    exact ⟨h level 3 (by omega) (by omega) (by omega) (by omega),
           fun l a hla ha1' ha3' hrank => h l a hla ha1' ha3' (by omega)⟩
  · rintro ⟨hcur, hnext⟩ l a hla ha1' ha3' hrank
    rcases Nat.eq_or_lt_of_le hrank with heq | hlt
    · obtain ⟨rfl, rfl⟩ : l = level ∧ a = 3 := by omega
      exact hcur
    · exact hnext l a hla ha1' ha3' (by omega)

theorem failsFrom_last (env : CamEnv) (f : Facing) :
    failsFrom env f 4 3 ↔ attemptFails env f 4 3 = true := by
  constructor
  · intro h
    exact h 4 3 (by omega) (by omega) (by omega) (by omega)
  · intro h l a hla ha1' ha3' hrank
    obtain ⟨rfl, rfl⟩ : l = 4 ∧ a = 3 := by omega
    exact h

theorem allFail_iff (env : CamEnv) (f : Facing) :
    allFail env f = true ↔ failsFrom env f 0 1 := by
  simp only [allFail, List.all_eq_true, List.mem_range]
  constructor
  · intro h l a hla ha1 ha3 _
    obtain ⟨k, rfl⟩ : ∃ k, a = k + 1 := ⟨a - 1, by omega⟩
    exact h l (by omega) k (by omega)
  · intro h l hl k hk
    exact h l (k + 1) (by omega) (by omega) (by omega) (by omega)


theorem startCameraAux_error (env : CamEnv) (f : Facing) :
    ∀ fuel level attempt s, remAct level attempt ≤ fuel →
      level ≤ 4 → 1 ≤ attempt → attempt ≤ 3 → s.onErrorCalled = false →
      ((startCameraAux env f fuel level attempt s).2.onErrorCalled = true ↔
        failsFrom env f level attempt) ∧
      ((startCameraAux env f fuel level attempt s).2.error ≠ none ↔
        failsFrom env f level attempt) ∧
      (Ev.errorOut ∈ (startCameraAux env f fuel level attempt s).1 ↔
        failsFrom env f level attempt) := by
  intro fuel
  induction fuel with
  | zero =>
      intro level attempt s hfuel hl ha1 ha3 hs
      exact absurd hfuel (by simp [remAct]; omega)
  | succ fuel ih =>
      intro level attempt s hfuel hl ha1 ha3 hs
      have hpost := attemptStep_post env f level attempt s
      have hevs := attemptStep_evs env f level attempt s
      rcases hres : failCause env f level attempt with _ | e
      · have hfb : attemptFails env f level attempt = false := by
          simp [attemptFails, hres]
        have hff : ¬ failsFrom env f level attempt := by
          intro h
          have hcur := h level attempt hl ha1 ha3 (by omega)
          rw [hfb] at hcur
          exact absurd hcur (by simp)
        rw [hfb] at hevs
        simp only [if_false, Bool.false_eq_true] at hevs
        have heq : startCameraAux env f (fuel + 1) level attempt s =
            ((attemptStep env f level attempt s).1,
             (attemptStep env f level attempt s).2.1) := by
          simp only [startCameraAux, attemptStep_err, hres]
        rw [heq]
        refine ⟨?_, ?_, ?_⟩
        · simp [hpost.2, hs, hff]
        · simp [hpost.1, hff]
        · simp [hevs, hff]
      · have hfb : attemptFails env f level attempt = true := by
          simp [attemptFails, hres]
        rw [hfb] at hevs
        simp only [if_true] at hevs
        by_cases hA : attempt < 3
        · obtain ⟨ih1, ih2, ih3⟩ := ih level (attempt + 1)
            { (attemptStep env f level attempt s).2.1 with retryCount := attempt }
            (by simp [remAct] at hfuel ⊢; omega) hl (by omega) (by omega)
            (by simp [hpost.2, hs])
          have hiff := failsFrom_succ_attempt env f level attempt hl ha1 hA
          have heq : startCameraAux env f (fuel + 1) level attempt s =
              ((attemptStep env f level attempt s).1 ++
                 Ev.retrySame level (attempt + 1) :: Ev.wait 1000 ::
                   (startCameraAux env f fuel level (attempt + 1)
                     { (attemptStep env f level attempt s).2.1 with
                         retryCount := attempt }).1,
               (startCameraAux env f fuel level (attempt + 1)
                 { (attemptStep env f level attempt s).2.1 with
                     retryCount := attempt }).2) := by
            simp only [startCameraAux, attemptStep_err, hres, if_pos hA]
          rw [heq]
          refine ⟨?_, ?_, ?_⟩
          · simp only [Prod.snd]
            rw [ih1, hiff]
            simp [hfb]
          · simp only [Prod.snd]
            rw [ih2, hiff]
            simp [hfb]
          · simp only [Prod.fst]
            rw [hiff]
            simp [hevs, ih3, hfb]
        · have ha' : attempt = 3 := by omega
          subst ha'
          by_cases hL : level < 4
          · obtain ⟨ih1, ih2, ih3⟩ := ih (level + 1) 1
              { (attemptStep env f level 3 s).2.1 with retryCount := 0 }
              (by simp [remAct] at hfuel ⊢; omega) (by omega) (by omega) (by omega)
              (by simp [hpost.2, hs])
            have hiff := failsFrom_succ_level env f level hL
            have heq : startCameraAux env f (fuel + 1) level 3 s =
                ((attemptStep env f level 3 s).1 ++
                   Ev.fallback (level + 1) :: Ev.wait 1000 ::
                     (startCameraAux env f fuel (level + 1) 1
                       { (attemptStep env f level 3 s).2.1 with
                           retryCount := 0 }).1,
                 (startCameraAux env f fuel (level + 1) 1
                   { (attemptStep env f level 3 s).2.1 with
                       retryCount := 0 }).2) := by
              simp only [startCameraAux, attemptStep_err, hres, if_neg hA, if_pos hL]
            rw [heq]
            refine ⟨?_, ?_, ?_⟩
            · simp only [Prod.snd]
              rw [ih1, hiff]
              simp [hfb]
            · simp only [Prod.snd]
              rw [ih2, hiff]
              simp [hfb]
            · simp only [Prod.fst]
              rw [hiff]
              simp [hevs, ih3, hfb]
          · have hl' : level = 4 := by omega
            subst hl'
            have heq : startCameraAux env f (fuel + 1) 4 3 s =
                ((attemptStep env f 4 3 s).1 ++ [Ev.errorOut],
                 { (attemptStep env f 4 3 s).2.1 with
                     error := some e, isStreaming := false, retryCount := 0,
                     isRetrying := false, onErrorCalled := true }) := by
              simp only [startCameraAux, attemptStep_err, hres, if_neg hA, if_neg hL]
            rw [heq]
            refine ⟨?_, ?_, ?_⟩
            · simp [failsFrom_last, hfb]
            · simp [failsFrom_last, hfb]
            · simp [hevs, failsFrom_last, hfb]

theorem startCameraAux_cleanup (env : CamEnv) (f : Facing)
    (hall : ∀ l a, l ≤ 4 → 1 ≤ a → a ≤ 3 → attemptFails env f l a = true) :
    ∀ fuel level attempt s, remAct level attempt ≤ fuel →
      level ≤ 4 → 1 ≤ attempt → attempt ≤ 3 →
      (startCameraAux env f fuel level attempt s).2.streamRef = none ∧
      (env.videoPresent = true →
        (startCameraAux env f fuel level attempt s).2.videoSrc = none) ∧
      (startCameraAux env f fuel level attempt s).2.isStreaming = false ∧
      (startCameraAux env f fuel level attempt s).2.error ≠ none ∧
      (∀ t ∈ s.stopped,
        t ∈ (startCameraAux env f fuel level attempt s).2.stopped) ∧
      (∀ stream, s.streamRef = some stream → ∀ t ∈ stream.tracks,
        t ∈ (startCameraAux env f fuel level attempt s).2.stopped) ∧
      (∀ l' a' stream, env.gum (getConstraints f l') a' = .ok stream →
        Ev.gumCall l' a' ∈ (startCameraAux env f fuel level attempt s).1 →
        ∀ t ∈ stream.tracks,
          t ∈ (startCameraAux env f fuel level attempt s).2.stopped) := by
  intro fuel
  induction fuel with
  | zero =>
      intro level attempt s hfuel hl ha1 ha3
      exact absurd hfuel (by simp [remAct]; omega)
  | succ fuel ih =>
      intro level attempt s hfuel hl ha1 ha3
      have hevs := attemptStep_evs env f level attempt s
      rcases hres : failCause env f level attempt with _ | e
      · exact absurd (hall level attempt hl ha1 ha3)
          (by simp [attemptFails, hres])
      · have hfb : attemptFails env f level attempt = true := by
          simp [attemptFails, hres]
        rw [hfb] at hevs
        simp only [if_true] at hevs
        have hfs := attemptStep_fail_state env f level attempt s e
          (by rw [attemptStep_err, hres])
        obtain ⟨hsr, hvs, hstr, hmono, hheld, hacq⟩ := hfs
        by_cases hA : attempt < 3
        · obtain ⟨jsr, jvs, jstr, jerr, jmono, jheld, jacq⟩ := ih level (attempt + 1)
            { (attemptStep env f level attempt s).2.1 with retryCount := attempt }
            (by simp [remAct] at hfuel ⊢; omega) hl (by omega) (by omega)
          have heq : startCameraAux env f (fuel + 1) level attempt s =
              ((attemptStep env f level attempt s).1 ++
                 Ev.retrySame level (attempt + 1) :: Ev.wait 1000 ::
                   (startCameraAux env f fuel level (attempt + 1)
                     { (attemptStep env f level attempt s).2.1 with
                         retryCount := attempt }).1,
               (startCameraAux env f fuel level (attempt + 1)
                 { (attemptStep env f level attempt s).2.1 with
                     retryCount := attempt }).2) := by
            simp only [startCameraAux, attemptStep_err, hres, if_pos hA]
          rw [heq]
          refine ⟨jsr, jvs, jstr, jerr, ?_, ?_, ?_⟩
          · exact fun t ht => jmono t (hmono t ht)
          · exact fun stream hstream t ht => jmono t (hheld stream hstream t ht)
          · intro l' a' stream hg hmem t ht
            rw [hevs] at hmem
            simp at hmem
            rcases hmem with ⟨rfl, rfl⟩ | h1
            · exact jmono t (hacq stream hg t ht)
            · exact jacq l' a' stream hg h1 t ht
        · have ha' : attempt = 3 := by omega
          subst ha'
          by_cases hL : level < 4
          · obtain ⟨jsr, jvs, jstr, jerr, jmono, jheld, jacq⟩ := ih (level + 1) 1
              { (attemptStep env f level 3 s).2.1 with retryCount := 0 }
              (by simp [remAct] at hfuel ⊢; omega) (by omega) (by omega) (by omega)
            have heq : startCameraAux env f (fuel + 1) level 3 s =
                ((attemptStep env f level 3 s).1 ++
                   Ev.fallback (level + 1) :: Ev.wait 1000 ::
                     (startCameraAux env f fuel (level + 1) 1
                       { (attemptStep env f level 3 s).2.1 with
                           retryCount := 0 }).1,
                 (startCameraAux env f fuel (level + 1) 1
                   { (attemptStep env f level 3 s).2.1 with
                       retryCount := 0 }).2) := by
              simp only [startCameraAux, attemptStep_err, hres, if_neg hA, if_pos hL]
            rw [heq]
            refine ⟨jsr, jvs, jstr, jerr, ?_, ?_, ?_⟩
            · exact fun t ht => jmono t (hmono t ht)
            · exact fun stream hstream t ht => jmono t (hheld stream hstream t ht)
            · intro l' a' stream hg hmem t ht
              rw [hevs] at hmem
              simp at hmem
              rcases hmem with ⟨rfl, rfl⟩ | h1
              · exact jmono t (hacq stream hg t ht)
              · exact jacq l' a' stream hg h1 t ht
          · have hl' : level = 4 := by omega
            subst hl'
            have heq : startCameraAux env f (fuel + 1) 4 3 s =
                ((attemptStep env f 4 3 s).1 ++ [Ev.errorOut],
                 { (attemptStep env f 4 3 s).2.1 with
                     error := some e, isStreaming := false, retryCount := 0,
                     isRetrying := false, onErrorCalled := true }) := by
              simp only [startCameraAux, attemptStep_err, hres, if_neg hA, if_neg hL]
            rw [heq]
            refine ⟨hsr, hvs, rfl, by simp, hmono, hheld, ?_⟩
            intro l' a' stream hg hmem t ht
            rw [hevs] at hmem
            simp at hmem
            obtain ⟨rfl, rfl⟩ := hmem
            exact hacq stream hg t ht

/-- C2: the retry recursion terminates: from the initial invocation,
`startCamera` makes at most 15 getUserMedia calls (at most 3 attempts per
constraint level over at most 5 levels), and every call it makes carries a
level 0-4 and an attempt number 1-3. -/
theorem C2_bounded_retries (env : CamEnv) (cameraFacing : Facing) :
    countGum (startCamera env cameraFacing).1 ≤ 15 ∧
    (startCamera env cameraFacing).1.all gumOk = true := by
  obtain ⟨h1, h2, _, _⟩ := startCameraAux_shape env cameraFacing 15 0 1
    initCamState (by norm_num [remAct]) (by omega) (by omega) (by omega)
  exact ⟨by simpa [remAct] using h1, h2⟩

/-- The all-failing concrete environment: every getUserMedia call rejects. -/
def camEnvAllFail : CamEnv :=
  { gum := fun _ _ => .throws, videoPresent := true,
    videoLoads := fun _ _ => true }

/-- C4: `startCamera` degrades gracefully before failing: the error state
is set, the `onError` callback invoked and the error reported exactly when
every attempt 1-3 at every constraint level 0-4 — in particular the last
attempt (3) at the last level (4) — has failed; when some attempt succeeds
(`allFail` is false) the run ends with no error and no `onError` call,
every earlier failure having been handled by a same-level retry or a
next-level fallback. -/
theorem C4_error_only_on_final_failure (env : CamEnv) (cameraFacing : Facing) :
    ((startCamera env cameraFacing).2.error ≠ none ↔
      allFail env cameraFacing = true) ∧
    ((startCamera env cameraFacing).2.onErrorCalled = true ↔
      allFail env cameraFacing = true) ∧
    (Ev.errorOut ∈ (startCamera env cameraFacing).1 ↔
      allFail env cameraFacing = true) ∧
    (allFail env cameraFacing = false →
      (startCamera env cameraFacing).2.error = none ∧
      (startCamera env cameraFacing).2.onErrorCalled = false) := by
  obtain ⟨h1, h2, h3⟩ := startCameraAux_error env cameraFacing 15 0 1
    initCamState (by norm_num [remAct]) (by omega) (by omega) (by omega) rfl
  rw [← allFail_iff] at h1 h2 h3
  refine ⟨h2, h1, h3, ?_⟩
  intro hfalse
  have hnot : ¬ allFail env cameraFacing = true := by simp [hfalse]
  constructor
  · by_contra hne
    exact hnot (h2.mp hne)
  · cases hoc : (startCamera env cameraFacing).2.onErrorCalled with
    | false => rfl
    | true => exact absurd (h1.mp hoc) hnot

/-- C4 witness: when every getUserMedia call rejects, the run ends with the
onError callback invoked. -/
theorem C4_witness :
    (startCamera camEnvAllFail .environment).2.onErrorCalled = true := by
  rw [(C4_error_only_on_final_failure camEnvAllFail .environment).2.1]
  rfl

/-- C6: each activation of the retry loop wraps exactly one getUserMedia
call — the number of calls in a run is one more than the number of
retry/fallback decisions, i.e. exactly one per activation — and a resolved
call is treated as a failure (the try block throws) when the stream is
null or has zero tracks. -/
theorem C6_one_call_per_attempt (env : CamEnv) (cameraFacing : Facing)
    (level attempt : Nat) (s : CamState) :
    countGum (startCamera env cameraFacing).1 =
      1 + countTransition (startCamera env cameraFacing).1 ∧
    (env.gum (getConstraints cameraFacing level) attempt = GumRes.nullStream →
      (attemptStep env cameraFacing level attempt s).2.2 =
        some CamErr.streamNull) ∧
    (∀ stream,
      env.gum (getConstraints cameraFacing level) attempt = GumRes.ok stream →
      stream.tracks.length = 0 →
      (attemptStep env cameraFacing level attempt s).2.2 =
        some CamErr.noStreamTracks) := by
  refine ⟨?_, ?_, ?_⟩
  · exact (startCameraAux_shape env cameraFacing 15 0 1 initCamState
      (by norm_num [remAct]) (by omega) (by omega) (by omega)).2.2.1
  · intro hg
    rw [attemptStep_err]
    simp [failCause, hg]
  · intro stream hg h0
    rw [attemptStep_err]
    simp [failCause, hg, h0]

/-- C6 witness: a null stream makes the attempt fail with the
'No camera stream received' error. -/
theorem C6_witness :
    (attemptStep { gum := fun _ _ => .nullStream, videoPresent := true,
                   videoLoads := fun _ _ => true }
      .environment 0 1 initCamState).2.2 = some CamErr.streamNull :=
  (C6_one_call_per_attempt _ .environment 0 1 initCamState).2.1 rfl

/-- C7: the retry loop backs off: the pre-attempt delay is monotonically
non-decreasing in the attempt number — 100 ms for attempt 1, 500 + 200 ·
attempt ms for every attempt above 1 — and in every run each retry and
each level-fallback decision is followed by the fixed additional 1000 ms
wait before the next attempt begins. -/
theorem C7_backoff (env : CamEnv) (cameraFacing : Facing) :
    (∀ attempt, delay attempt ≤ delay (attempt + 1)) ∧
    delay 1 = 100 ∧
    (∀ attempt, 1 < attempt → delay attempt = 500 + 200 * attempt) ∧
    transitionsWaited (startCamera env cameraFacing).1 = true := by
  refine ⟨?_, by decide, ?_, ?_⟩
  · intro attempt
    rcases attempt with _ | (_ | a)
    · decide
    · decide
    · have h2 : 1 < a + 2 := by omega
      have h3 : 1 < a + 2 + 1 := by omega
      simp [delay, h2, h3]
  · intro attempt h
    simp [delay, h]
    omega
  · exact (startCameraAux_shape env cameraFacing 15 0 1 initCamState
      (by norm_num [remAct]) (by omega) (by omega) (by omega)).2.2.2

/-- C7 witness: the delay of attempt 2 is 500 + 200 · 2 = 900 ms. -/
theorem C7_witness : delay 2 = 500 + 200 * 2 :=
  (C7_backoff camEnvAllFail .environment).2.2.1 2 (by omega)

/-- A state holding a one-track stream, for exercising `stopCamera`. -/
def heldState : CamState :=
  { initCamState with streamRef := some ⟨[{ id := 7 }]⟩ }

/-- C10: camera resources are released on every stop or failure path.
After `stopCamera`: the stream reference is dropped, `isStreaming` is
false, the video element (when present) is cleared, and every track of the
previously held stream has been stopped. After `startCamera` ends in its
final failure (all attempts fail): the stream reference is dropped, the
component is not streaming, the video element (when present) is cleared,
the error state is set, and every track of every stream any getUserMedia
call delivered during the run has been stopped. -/
theorem C10_resources_released (env : CamEnv) (cameraFacing : Facing)
    (s : CamState) :
    (stopCamera env.videoPresent s).streamRef = none ∧
    (stopCamera env.videoPresent s).isStreaming = false ∧
    (env.videoPresent = true → (stopCamera env.videoPresent s).videoSrc = none) ∧
    (∀ stream, s.streamRef = some stream →
      ∀ t ∈ stream.tracks, t ∈ (stopCamera env.videoPresent s).stopped) ∧
    (allFail env cameraFacing = true →
      (startCamera env cameraFacing).2.streamRef = none ∧
      (startCamera env cameraFacing).2.isStreaming = false ∧
      (env.videoPresent = true → (startCamera env cameraFacing).2.videoSrc = none) ∧
      (startCamera env cameraFacing).2.error ≠ none ∧
      (∀ l a stream,
        env.gum (getConstraints cameraFacing l) a = GumRes.ok stream →
        Ev.gumCall l a ∈ (startCamera env cameraFacing).1 →
        ∀ t ∈ stream.tracks, t ∈ (startCamera env cameraFacing).2.stopped)) := by
  refine ⟨?_, ?_, ?_, ?_, ?_⟩
  · unfold stopCamera clearVideo stopTracksOf
    cases hv : env.videoPresent <;> cases hs : s.streamRef <;> simp [hs]
  · rfl
  · intro hv
    unfold stopCamera clearVideo stopTracksOf
    rw [hv]
    cases hs : s.streamRef <;> simp
  · intro stream hs t ht
    unfold stopCamera clearVideo stopTracksOf
    rw [hs]
    cases hv : env.videoPresent <;> simp [List.mem_append] <;> exact Or.inr ht
  · intro hall
    have hfa : ∀ l a, l ≤ 4 → 1 ≤ a → a ≤ 3 →
        attemptFails env cameraFacing l a = true :=
      fun l a hl ha1 ha3 =>
        ((allFail_iff env cameraFacing).mp hall) l a hl ha1 ha3 (by omega)
    obtain ⟨h1, h2, h3, h4, _, _, h7⟩ := startCameraAux_cleanup env cameraFacing
      hfa 15 0 1 initCamState (by norm_num [remAct]) (by omega) (by omega)
      (by omega)
    exact ⟨h1, h3, h2, h4, h7⟩

/-- C10 witness: `stopCamera` stops the held track, and after an all-failing
`startCamera` run the stream reference is gone and the error state set. -/
theorem C10_witness :
    Track.mk 7 ∈ (stopCamera camEnvAllFail.videoPresent heldState).stopped ∧
    (startCamera camEnvAllFail .environment).2.streamRef = none := by
  constructor
  · exact (C10_resources_released camEnvAllFail .environment heldState).2.2.2.1
      ⟨[{ id := 7 }]⟩ rfl (Track.mk 7) (by simp)
  · exact ((C10_resources_released camEnvAllFail .environment
      heldState).2.2.2.2 rfl).1

/-- The fuel of `startCameraAux` is an artifact of the embedding: any two
fuels at least the number of remaining activations give the same result, so
the fuel-0 branch is never reached from `startCamera`'s invocation (fuel 15
= remAct 0 1). -/
theorem startCameraAux_fuel_irrelevant (env : CamEnv) (f : Facing) :
    ∀ fuel fuel' level attempt s,
      remAct level attempt ≤ fuel → remAct level attempt ≤ fuel' →
      level ≤ 4 → 1 ≤ attempt → attempt ≤ 3 →
      startCameraAux env f fuel level attempt s =
        startCameraAux env f fuel' level attempt s := by
  intro fuel
  induction fuel with
  | zero =>
      intro fuel' level attempt s h1 h2 hl ha1 ha3
      exact absurd h1 (by simp [remAct]; omega)
  | succ fuel ih =>
      intro fuel' level attempt s h1 h2 hl ha1 ha3
      rcases fuel' with _ | fuel'
      · exact absurd h2 (by simp [remAct]; omega)
      · rcases hres : failCause env f level attempt with _ | e
        · simp only [startCameraAux, attemptStep_err, hres]
        · by_cases hA : attempt < 3
          · have hrec := ih fuel' level (attempt + 1)
              { (attemptStep env f level attempt s).2.1 with retryCount := attempt }
              (by simp [remAct] at h1 ⊢; omega) (by simp [remAct] at h2 ⊢; omega)
              hl (by omega) (by omega)
            simp only [startCameraAux, attemptStep_err, hres, if_pos hA, hrec]
          · by_cases hL : level < 4
            · have hrec := ih fuel' (level + 1) 1
                { (attemptStep env f level attempt s).2.1 with retryCount := 0 }
                (by simp [remAct] at h1 ⊢; omega) (by simp [remAct] at h2 ⊢; omega)
                (by omega) (by omega) (by omega)
              simp only [startCameraAux, attemptStep_err, hres, if_neg hA,
                         if_pos hL, hrec]
            · simp only [startCameraAux, attemptStep_err, hres, if_neg hA,
                         if_neg hL]
